import Mathlib

/-!
Verification of the squinched-projection core of `blender-squinch.py`.

The driver-function side of the add-on (`_calculate_squinch_data`,
`squinch_horizontal_fov`, `squinch_horizontal_shift`,
`squinch_vertical_shift`, lines 255-340) is pure rational arithmetic over
camera-space points plus a single-slot cache keyed by the scene's current
frame; it is embedded over `ℚ` with the host scene graph modelled as a
finite name-to-object association list (`find_object` is
`bpy.data.objects.get`).  The plane-geometry side
(`_compute_plane_basis`, `get_plane_corner_world_positions`,
`ensure_orientation_empty`, `width_height_from_corners`,
`set_render_aspect_to_plane`, lines 47-229) normalises vectors, so it is
embedded over `ℝ` with `Real.sqrt`.
-/

/-- `mathutils.Vector` with three components. -/
structure Vec3 (α : Type) where
  x : α
  y : α
  z : α
deriving DecidableEq

namespace Vec3

variable {α : Type} [LinearOrderedField α]

instance : Zero (Vec3 α) := ⟨⟨0, 0, 0⟩⟩

instance : Add (Vec3 α) := ⟨fun a b => ⟨a.x + b.x, a.y + b.y, a.z + b.z⟩⟩

instance : Neg (Vec3 α) := ⟨fun a => ⟨-a.x, -a.y, -a.z⟩⟩

instance : Sub (Vec3 α) := ⟨fun a b => ⟨a.x - b.x, a.y - b.y, a.z - b.z⟩⟩

instance : SMul α (Vec3 α) := ⟨fun c v => ⟨c * v.x, c * v.y, c * v.z⟩⟩

/-- `Vector.dot`. -/
def dot (a b : Vec3 α) : α := a.x * b.x + a.y * b.y + a.z * b.z

/-- `Vector.cross`. -/
def cross (a b : Vec3 α) : Vec3 α :=
  ⟨a.y * b.z - a.z * b.y, a.z * b.x - a.x * b.z, a.x * b.y - a.y * b.x⟩

end Vec3

/-- A 3x3 matrix as three rows (the linear part of a `matrix_world`). -/
structure Mat3 (α : Type) where
  r0 : Vec3 α
  r1 : Vec3 α
  r2 : Vec3 α
deriving DecidableEq

/-- Matrix-vector application (`m @ v` on a 3x3 `mathutils.Matrix`). -/
def Mat3.mulVec {α : Type} [LinearOrderedField α] (m : Mat3 α) (v : Vec3 α) : Vec3 α :=
  ⟨Vec3.dot m.r0 v, Vec3.dot m.r1 v, Vec3.dot m.r2 v⟩

/-- An affine transform (a 4x4 `mathutils.Matrix`): linear part plus
translation; `apply` is `m @ p` on a point. -/
structure Affine3 (α : Type) where
  lin : Mat3 α
  tr : Vec3 α
deriving DecidableEq

def Affine3.apply {α : Type} [LinearOrderedField α] (m : Affine3 α) (v : Vec3 α) : Vec3 α :=
  m.lin.mulVec v + m.tr

/-! ## The driver-function model (lines 249-340), over `ℚ` -/

/-- `cam.data` for a camera object: `sensor_width` and `lens`.  A scene
object whose data block is not a camera has none, and reading
`cam.data.sensor_width` on it raises (caught by the `except` clause of
`_calculate_squinch_data`). -/
structure CamData where
  sensor_width : ℚ
  lens : ℚ
deriving DecidableEq

/-- A host scene-graph object: its `matrix_world.translation`, its
`matrix_world.inverted_safe()` (the host computes it; we carry it as data),
and, when the object is a camera, its camera data. -/
structure SceneObj where
  translation : Vec3 ℚ
  camInv : Affine3 ℚ
  camData : Option CamData
deriving DecidableEq

/-- The scene as the driver functions see it: the current frame and
subframe, the two configured names (`scene.get` of an unset key is `none`),
and the named objects (`bpy.data.objects`). -/
structure Scene where
  frame_current : ℤ
  frame_subframe : ℚ
  squinch_camera_name : Option String
  squinch_plane_name : Option String
  objects : List (String × SceneObj)
deriving DecidableEq

/-- The entry of `_squinch_cache`: `width_u`, `center_u`, `center_v`,
`sensor_width`, `current_lens` (line 304). -/
structure SquinchData where
  width_u : ℚ
  center_u : ℚ
  center_v : ℚ
  sensor_width : ℚ
  current_lens : ℚ
deriving DecidableEq

/-- `_squinch_cache = {'frame': -1, 'data': None}` (line 255). -/
structure SquinchCache where
  frame : ℤ
  data : Option SquinchData
deriving DecidableEq

/-- `find_object` (line 29): `bpy.data.objects.get(name)`. -/
def find_object (s : Scene) (name : String) : Option SceneObj :=
  s.objects.lookup name

/-- `get_corner_empty_name` (line 158). -/
def get_corner_empty_name (plane_name label : String) : String :=
  "Squinch_" ++ plane_name ++ "_" ++ label

/-- Python falsiness of `scene.get(key)`: `None` or the empty string
(the `if not camera_name or not plane_name` test, line 270). -/
def py_falsy : Option String → Bool
  | none => true
  | some s => s == ""

/-- `eps = 1e-4` (line 288). -/
def squinch_eps : ℚ := 1e-4

/-- The body of the `try` block of `_calculate_squinch_data`
(lines 287-310) on the four camera-space corner points, in source order:
`dz = max(-p.z, eps)`, `u = p.x/dz`, `v = p.y/dz`, extents of the four `u`
values, `center_u = (u_min+u_max)*0.5`, `center_v = sum(v_vals)*0.25`. -/
def squinchCore (p0 p1 p2 p3 : Vec3 ℚ) (sw lens : ℚ) : SquinchData :=
  let dz := fun p : Vec3 ℚ => max (-p.z) squinch_eps
  let u := fun p : Vec3 ℚ => p.x / dz p
  let v := fun p : Vec3 ℚ => p.y / dz p
  let u_min := min (min (min (u p0) (u p1)) (u p2)) (u p3)
  let u_max := max (max (max (u p0) (u p1)) (u p2)) (u p3)
  { width_u := u_max - u_min
    center_u := (u_min + u_max) * (1 / 2)
    center_v := (v p0 + v p1 + v p2 + v p3) * (1 / 4)
    sensor_width := sw
    current_lens := lens }

/-- The non-cached part of `_calculate_squinch_data` (lines 267-316): read
the configured names (falsy check), resolve camera, plane and the four
corner empties, transform the empty translations by
`cam.matrix_world.inverted_safe()` and run the projection math; any
unresolved reference or missing camera data yields `none` (the early
`return None`s and the `except` clause). -/
def computeSquinchData (s : Scene) : Option SquinchData :=
  match s.squinch_camera_name, s.squinch_plane_name with
  | some cn, some pn =>
    if cn = "" ∨ pn = "" then none
    else
      match find_object s cn, find_object s pn with
      | some cam, some _plane =>
        match find_object s (get_corner_empty_name pn "bottom_left"),
              find_object s (get_corner_empty_name pn "bottom_right"),
              find_object s (get_corner_empty_name pn "top_left"),
              find_object s (get_corner_empty_name pn "top_right") with
        | some e0, some e1, some e2, some e3 =>
          match cam.camData with
          | some cd =>
            some (squinchCore (cam.camInv.apply e0.translation)
                (cam.camInv.apply e1.translation)
                (cam.camInv.apply e2.translation)
                (cam.camInv.apply e3.translation) cd.sensor_width cd.lens)
          | none => none
        | _, _, _, _ => none
      | _, _ => none
  | _, _ => none

/-- `_calculate_squinch_data` (lines 258-316) as a function of the scene
and the cache, returning the updated cache and the result: on a hit
(`_squinch_cache['frame'] == current_frame and data is not None`) return
the cached data unchanged; otherwise recompute, caching only on success. -/
def calculate_squinch_data (s : Scene) (cache : SquinchCache) :
    SquinchCache × Option SquinchData :=
  if cache.frame = s.frame_current ∧ cache.data.isSome then (cache, cache.data)
  else
    match computeSquinchData s with
    | some d => ({ frame := s.frame_current, data := some d }, some d)
    | none => (cache, none)

/-- `squinch_horizontal_fov` (lines 319-324). -/
def squinch_horizontal_fov (s : Scene) (cache : SquinchCache) : SquinchCache × ℚ :=
  match calculate_squinch_data s cache with
  | (c2, none) => (c2, 35)
  | (c2, some d) =>
    if |d.width_u| ≤ 1e-9 then (c2, 35)
    else (c2, max 1 (d.sensor_width / d.width_u))

/-- `squinch_horizontal_shift` (lines 327-332). -/
def squinch_horizontal_shift (s : Scene) (cache : SquinchCache) : SquinchCache × ℚ :=
  match calculate_squinch_data s cache with
  | (c2, none) => (c2, 0)
  | (c2, some d) =>
    if |d.width_u| ≤ 1e-9 then (c2, 0)
    else (c2, d.center_u / d.width_u)

/-- `squinch_vertical_shift` (lines 335-340). -/
def squinch_vertical_shift (s : Scene) (cache : SquinchCache) : SquinchCache × ℚ :=
  match calculate_squinch_data s cache with
  | (c2, none) => (c2, 0)
  | (c2, some d) =>
    if |d.width_u| ≤ 1e-9 then (c2, 0)
    else (c2, d.center_v / d.width_u)

/-! Failure-condition predicates, mirroring the early-return conditions of
`_calculate_squinch_data` (used to state the error-handling claims). -/

/-- One of the two configuration keys is unset or empty (line 270). -/
def config_falsy (s : Scene) : Bool :=
  py_falsy s.squinch_camera_name || py_falsy s.squinch_plane_name

/-- The configured camera or plane name resolves to no object (line 275). -/
def cam_plane_unresolved (s : Scene) : Bool :=
  match s.squinch_camera_name, s.squinch_plane_name with
  | some cn, some pn => (find_object s cn).isNone || (find_object s pn).isNone
  | _, _ => false

/-- Some corner empty of the configured plane is missing (line 279). -/
def empties_unresolved (s : Scene) : Bool :=
  match s.squinch_plane_name with
  | some pn =>
    (find_object s (get_corner_empty_name pn "bottom_left")).isNone ||
    (find_object s (get_corner_empty_name pn "bottom_right")).isNone ||
    (find_object s (get_corner_empty_name pn "top_left")).isNone ||
    (find_object s (get_corner_empty_name pn "top_right")).isNone
  | none => false

/-- The configured camera resolves but has no camera data, so
`cam.data.sensor_width` raises inside the `try` block (line 303). -/
def camera_data_missing (s : Scene) : Bool :=
  match s.squinch_camera_name with
  | some cn =>
    match find_object s cn with
    | some cam => cam.camData.isNone
    | none => false
  | none => false

/-! Spec-side formulas for the projection data (section 4.4 of the spec),
written from the spec's words for comparison with `squinchCore`. -/

/-- Spec formula `u = x / max(-z, 1e-4)`. -/
def specPerspU (p : Vec3 ℚ) : ℚ := p.x / max (-p.z) 1e-4

/-- Spec formula `v = y / max(-z, 1e-4)`. -/
def specPerspV (p : Vec3 ℚ) : ℚ := p.y / max (-p.z) 1e-4

/-- The spec's cached data: `widthU = max(u) - min(u)`,
`centerU = (min(u)+max(u))/2`, `centerV = mean of the four v`. -/
def specSquinchData (p0 p1 p2 p3 : Vec3 ℚ) (cd : CamData) : SquinchData :=
  let umin := min (min (min (specPerspU p0) (specPerspU p1)) (specPerspU p2)) (specPerspU p3)
  let umax := max (max (max (specPerspU p0) (specPerspU p1)) (specPerspU p2)) (specPerspU p3)
  { width_u := umax - umin
    center_u := (umin + umax) / 2
    center_v := (specPerspV p0 + specPerspV p1 + specPerspV p2 + specPerspV p3) / 4
    sensor_width := cd.sensor_width
    current_lens := cd.lens }

/-! ## The plane-geometry model (lines 47-229), over `ℝ` -/

noncomputable section PlaneGeometry

open Classical in
/-- `Vector.length`. -/
def Vec3.length (v : Vec3 ℝ) : ℝ := Real.sqrt (Vec3.dot v v)

open Classical in
/-- `Vector.normalized()`: the zero vector stays zero, any other vector is
scaled by the reciprocal of its length. -/
def Vec3.normalized (v : Vec3 ℝ) : Vec3 ℝ :=
  if v.length = 0 then ⟨0, 0, 0⟩ else (1 / v.length) • v

/-- One entry of `mesh.polygons`: its local-space `normal` and its `area`. -/
structure MeshPoly where
  normal : Vec3 ℝ
  area : ℝ

/-- The plane object as the geometry code reads it: its `matrix_world`
(linear part `matrix_lin` = `to_3x3()`, translation `matrix_tr`), its
local-space mesh vertices and its polygons. -/
structure PlaneObject where
  matrix_lin : Mat3 ℝ
  matrix_tr : Vec3 ℝ
  verts : List (Vec3 ℝ)
  polys : List MeshPoly

/-- `_mesh_world_vertices` (line 47): `mw @ v.co` for every vertex. -/
def mesh_world_vertices (p : PlaneObject) : List (Vec3 ℝ) :=
  p.verts.map (fun v => p.matrix_lin.mulVec v + p.matrix_tr)

/-- Sum of a vertex list (the accumulation loop of lines 71-73). -/
def vecSum (l : List (Vec3 ℝ)) : Vec3 ℝ :=
  l.foldl (· + ·) ⟨0, 0, 0⟩

/-- The area-weighted face-normal accumulator of lines 80-83:
`acc += (m3 @ poly.normal) * poly.area`. -/
def accum_face_normal (p : PlaneObject) : Vec3 ℝ :=
  p.polys.foldl (fun acc poly => acc + poly.area • p.matrix_lin.mulVec poly.normal) ⟨0, 0, 0⟩

open Classical in
/-- The scan of lines 89-93: the first later vertex farther than `1e-8`
from `p0`. -/
def find_second (p0 : Vec3 ℝ) : List (Vec3 ℝ) → Option (Vec3 ℝ)
  | [] => none
  | q :: rest => if (q - p0).length > 1e-8 then some q else find_second p0 rest

open Classical in
/-- The scan of lines 94-99: the first vertex of `verts[2:]` whose cross
product `(p - p0) x (p1 - p0)` has length above `1e-8`. -/
def find_third (p0 p1 : Vec3 ℝ) : List (Vec3 ℝ) → Option (Vec3 ℝ)
  | [] => none
  | q :: rest =>
    if ((q - p0).cross (p1 - p0)).length > 1e-8 then some q else find_third p0 p1 rest

/-- The vertex-triple normal fallback of lines 86-103: from the first
vertex, a second distinct vertex (scanned in `verts[1:]`) and a third
non-collinear vertex (scanned in `verts[2:]`, i.e. one further into the
tail) build `normalized((p1-p0) x (p2-p0))`; failing that, default to
`+Z`. -/
def fallback_normal (wverts : List (Vec3 ℝ)) : Vec3 ℝ :=
  match wverts with
  | [] => ⟨0, 0, 1⟩
  | p0 :: rest =>
    match find_second p0 rest with
    | none => ⟨0, 0, 1⟩
    | some p1 =>
      match find_third p0 p1 (rest.drop 1) with
      | none => ⟨0, 0, 1⟩
      | some p2 => ((p1 - p0).cross (p2 - p0)).normalized

def zAxis : Vec3 ℝ := ⟨0, 0, 1⟩

def yAxis : Vec3 ℝ := ⟨0, 1, 0⟩

open Classical in
/-- The reference up vector of lines 64, 106, 201: world `+Z` unless the
normal is nearly parallel to it (`abs(n.dot(Z)) >= 0.999`), then `+Y`. -/
def up_reference (n : Vec3 ℝ) : Vec3 ℝ :=
  if |Vec3.dot n zAxis| < 0.999 then zAxis else yAxis

/-- The orthonormalization of lines 106-108 (repeated verbatim at lines
201-203): `u = normalize(up_ref x n)`, `v = normalize(n x u)`. -/
def build_basis (n : Vec3 ℝ) : Vec3 ℝ × Vec3 ℝ :=
  let u := ((up_reference n).cross n).normalized
  let v := (n.cross u).normalized
  (u, v)

open Classical in
/-- The origin chosen by `_compute_plane_basis`: the object's translation
when the mesh has no vertices (line 67), else the vertex centroid
(lines 71-74). -/
def plane_origin (p : PlaneObject) : Vec3 ℝ :=
  if mesh_world_vertices p = [] then p.matrix_tr
  else (1 / ((mesh_world_vertices p).length : ℝ)) • vecSum (mesh_world_vertices p)

open Classical in
/-- The normal chosen by `_compute_plane_basis`: the object's `+Z` axis
when the mesh has no vertices (line 63); else the normalised area-weighted
face-normal sum when faces exist and the sum is longer than `1e-12`
(lines 79-85); else the vertex-triple fallback (lines 86-103). -/
def plane_normal (p : PlaneObject) : Vec3 ℝ :=
  if mesh_world_vertices p = [] then (p.matrix_lin.mulVec zAxis).normalized
  else if p.polys ≠ [] ∧ (accum_face_normal p).length > 1e-12 then
    (accum_face_normal p).normalized
  else fallback_normal (mesh_world_vertices p)

/-- `axis_u` of the basis `_compute_plane_basis` returns. -/
def plane_axis_u (p : PlaneObject) : Vec3 ℝ := (build_basis (plane_normal p)).1

/-- `axis_v` of the basis `_compute_plane_basis` returns. -/
def plane_axis_v (p : PlaneObject) : Vec3 ℝ := (build_basis (plane_normal p)).2

/-- `_compute_plane_basis` (lines 53-109): `(origin, axis_u, axis_v,
normal)` in world space. -/
def compute_plane_basis (p : PlaneObject) : Vec3 ℝ × Vec3 ℝ × Vec3 ℝ × Vec3 ℝ :=
  (plane_origin p, plane_axis_u p, plane_axis_v p, plane_normal p)

/-- `(min(l), max(l)) if l else (0.0, 1.0)` (lines 127-128); Python's
`min`/`max` of a non-empty list fold over it. -/
def extent (l : List ℝ) : ℝ × ℝ :=
  match l with
  | [] => (0, 1)
  | h :: t => (t.foldl min h, t.foldl max h)

/-- The result of `get_plane_corner_world_positions` (line 138). -/
structure PlaneCorners where
  bottom_left : Vec3 ℝ
  bottom_right : Vec3 ℝ
  top_left : Vec3 ℝ
  top_right : Vec3 ℝ

/-- `get_plane_corner_world_positions` (lines 112-143): project the world
vertices on `axis_u`/`axis_v`, take extents, and rebuild the four corner
world positions relative to the origin's own projections. -/
def get_plane_corner_world_positions (p : PlaneObject) : PlaneCorners :=
  let b := compute_plane_basis p
  let o := b.1
  let u := b.2.1
  let v := b.2.2.1
  let wverts := mesh_world_vertices p
  let us := wverts.map (fun q => Vec3.dot q u)
  let vs := wverts.map (fun q => Vec3.dot q v)
  let eu := extent us
  let ev := extent vs
  let o_u := Vec3.dot o u
  let o_v := Vec3.dot o v
  let pos := fun uu vv => o + (uu - o_u) • u + (vv - o_v) • v
  { bottom_left := pos eu.1 ev.1
    bottom_right := pos eu.2 ev.1
    top_left := pos eu.1 ev.2
    top_right := pos eu.2 ev.2 }

open Classical in
/-- `width_height_from_corners` (lines 146-155). -/
def width_height_from_corners (p : PlaneObject) : ℝ × ℝ :=
  let b := compute_plane_basis p
  let u := b.2.1
  let v := b.2.2.1
  let wverts := mesh_world_vertices p
  if wverts = [] then (1, 1)
  else
    let us := wverts.map (fun q => Vec3.dot q u)
    let vs := wverts.map (fun q => Vec3.dot q v)
    (|(extent us).2 - (extent us).1|, |(extent vs).2 - (extent vs).1|)

open Classical in
/-- The world-space frame `ensure_orientation_empty` computes
(lines 193-204): the plane basis, with the normal flipped and the tangent
axes rebuilt when the camera sits on the back side (`side < 0`). -/
def ensure_orientation_frame (p : PlaneObject) (camera : Option (Vec3 ℝ)) :
    Vec3 ℝ × Vec3 ℝ × Vec3 ℝ × Vec3 ℝ :=
  let b := compute_plane_basis p
  let o := b.1
  let u := b.2.1
  let v := b.2.2.1
  let n := b.2.2.2
  match camera with
  | none => (o, u, v, n)
  | some camPos =>
    let side := Vec3.dot (camPos - o) n
    if side < 0 then
      let n2 := -n
      let uv := build_basis n2
      (o, uv.1, uv.2, n2)
    else (o, u, v, n)

/-- The render settings `set_render_aspect_to_plane` touches. -/
structure RenderSettings where
  resolution_x : ℤ
  resolution_y : ℤ
  pixel_aspect_x : ℝ
  pixel_aspect_y : ℝ

open Classical in
/-- Python's `round` on a real value: nearest integer, ties to even. -/
def python_round (q : ℝ) : ℤ :=
  let f := ⌊q⌋
  if q - f < 1 / 2 then f
  else if (1 : ℝ) / 2 < q - f then f + 1
  else if f % 2 = 0 then f else f + 1

open Classical in
/-- The resolution arithmetic of `set_render_aspect_to_plane`
(lines 215-229), taking the width and height `width_height_from_corners`
returned: bail out on a non-positive extent; keep `resolution_x` (raised
to at least 2 and bumped to even); set `resolution_y` to
`round(res_x / aspect)` (raised to at least 2 and bumped to even); reset
both pixel aspects to 1. -/
def set_render_aspect_core (r : RenderSettings) (width height : ℝ) : RenderSettings :=
  if width ≤ 0 ∨ height ≤ 0 then r
  else
    let aspect := width / height
    let rx0 := max 2 r.resolution_x
    let res_x := if rx0 % 2 ≠ 0 then rx0 + 1 else rx0
    let ry0 := max 2 (python_round ((res_x : ℝ) / aspect))
    let res_y := if ry0 % 2 ≠ 0 then ry0 + 1 else ry0
    { resolution_x := res_x
      resolution_y := res_y
      pixel_aspect_x := 1
      pixel_aspect_y := 1 }

/-- `set_render_aspect_to_plane` (lines 213-229). -/
def set_render_aspect_to_plane (r : RenderSettings) (p : PlaneObject) : RenderSettings :=
  set_render_aspect_core r (width_height_from_corners p).1 (width_height_from_corners p).2

end PlaneGeometry

/-! ## Concrete scenes and meshes used to instantiate the theorems -/

/-- The identity transform. -/
def idAffine : Affine3 ℚ :=
  { lin := { r0 := ⟨1, 0, 0⟩, r1 := ⟨0, 1, 0⟩, r2 := ⟨0, 0, 1⟩ }, tr := ⟨0, 0, 0⟩ }

/-- A 36mm sensor with a 50mm lens. -/
def wCamData : CamData := { sensor_width := 36, lens := 50 }

/-- A camera at the world origin looking down `-Z`. -/
def wCam : SceneObj := { translation := ⟨0, 0, 0⟩, camInv := idAffine, camData := some wCamData }

/-- A plain empty at a given position. -/
def wEmpty (p : Vec3 ℚ) : SceneObj := { translation := p, camInv := idAffine, camData := none }

/-- The freshly-initialised cache (line 255). -/
def wCache0 : SquinchCache := { frame := -1, data := none }

/-- A configured scene: camera `Cam` at the origin, plane `Plane` whose
four corner empties form the symmetric 2x2 square at depth 10 of the
spec's worked example. -/
def wScene : Scene :=
  { frame_current := 1
    frame_subframe := 0
    squinch_camera_name := some "Cam"
    squinch_plane_name := some "Plane"
    objects :=
      [("Cam", wCam), ("Plane", wEmpty ⟨0, 0, -10⟩),
       ("Squinch_Plane_bottom_left", wEmpty ⟨-1, -1, -10⟩),
       ("Squinch_Plane_bottom_right", wEmpty ⟨1, -1, -10⟩),
       ("Squinch_Plane_top_left", wEmpty ⟨-1, 1, -10⟩),
       ("Squinch_Plane_top_right", wEmpty ⟨1, 1, -10⟩)] }

/-- The same scene with all four corner empties coincident (the
degenerate zero-span case). -/
def wSceneZero : Scene :=
  { wScene with
    objects :=
      [("Cam", wCam), ("Plane", wEmpty ⟨0, 0, -5⟩),
       ("Squinch_Plane_bottom_left", wEmpty ⟨0, 0, -5⟩),
       ("Squinch_Plane_bottom_right", wEmpty ⟨0, 0, -5⟩),
       ("Squinch_Plane_top_left", wEmpty ⟨0, 0, -5⟩),
       ("Squinch_Plane_top_right", wEmpty ⟨0, 0, -5⟩)] }

/-- A scene with no configuration keys set. -/
def wSceneNoConfig : Scene :=
  { frame_current := 1
    frame_subframe := 0
    squinch_camera_name := none
    squinch_plane_name := none
    objects := [("Cam", wCam)] }

/-- Frame 5, subframe 0: the first evaluation instant of the cache-key
counterexample. -/
def sceneA : Scene := { wScene with frame_current := 5, frame_subframe := 0 }

/-- Frame 5, subframe 1/2: the instant has advanced (the subframe moved)
and the bottom-right corner empty has moved, so a recomputation would
return different data. -/
def sceneB : Scene :=
  { wScene with
    frame_current := 5
    frame_subframe := 1 / 2
    objects :=
      [("Cam", wCam), ("Plane", wEmpty ⟨0, 0, -10⟩),
       ("Squinch_Plane_bottom_left", wEmpty ⟨-1, -1, -10⟩),
       ("Squinch_Plane_bottom_right", wEmpty ⟨3, -1, -10⟩),
       ("Squinch_Plane_top_left", wEmpty ⟨-1, 1, -10⟩),
       ("Squinch_Plane_top_right", wEmpty ⟨1, 1, -10⟩)] }

/-- The cache after the successful evaluation at `sceneA`. -/
def cacheAfterA : SquinchCache := (calculate_squinch_data sceneA wCache0).1

/-- A 2x1 rectangle in the `z = 0` plane (identity world transform, no
face data, so the basis normal comes from the vertex-triple fallback). -/
noncomputable def wPlane : PlaneObject :=
  { matrix_lin := { r0 := ⟨1, 0, 0⟩, r1 := ⟨0, 1, 0⟩, r2 := ⟨0, 0, 1⟩ }
    matrix_tr := ⟨0, 0, 0⟩
    verts := [⟨0, 0, 0⟩, ⟨2, 0, 0⟩, ⟨2, 1, 0⟩, ⟨0, 1, 0⟩]
    polys := [] }

/-- Render settings before the aspect adjustment. -/
def wRender : RenderSettings :=
  { resolution_x := 1920, resolution_y := 1080, pixel_aspect_x := 1, pixel_aspect_y := 1 }

/-- Every guarded failure condition of `_calculate_squinch_data` makes the
recomputation yield `None`. -/
lemma computeSquinchData_eq_none (s : Scene)
    (h : config_falsy s = true ∨ cam_plane_unresolved s = true ∨
      empties_unresolved s = true ∨ camera_data_missing s = true) :
    computeSquinchData s = none := by
  rw [computeSquinchData]
  rcases hcn : s.squinch_camera_name with _ | cn
  · rfl
  rcases hpn : s.squinch_plane_name with _ | pn
  · rfl
  simp only [config_falsy, cam_plane_unresolved, empties_unresolved, camera_data_missing,
    hcn, hpn, py_falsy, Bool.or_eq_true, beq_iff_eq] at h
  dsimp only
  by_cases hcfg : cn = "" ∨ pn = ""
  · rw [if_pos hcfg]
  rw [if_neg hcfg]
  push_neg at hcfg
  rcases hcam : find_object s cn with _ | cam
  · rfl
  rcases hplane : find_object s pn with _ | plane
  · rfl
  rcases he0 : find_object s (get_corner_empty_name pn "bottom_left") with _ | e0
  · rfl
  rcases he1 : find_object s (get_corner_empty_name pn "bottom_right") with _ | e1
  · rfl
  rcases he2 : find_object s (get_corner_empty_name pn "top_left") with _ | e2
  · rfl
  rcases he3 : find_object s (get_corner_empty_name pn "top_right") with _ | e3
  · rfl
  rcases hcd : cam.camData with _ | cd
  · simp [hcd]
  exfalso
  simp only [hcam, hplane, he0, he1, he2, he3, hcd, Option.isNone_some, Bool.or_self,
    Option.isNone_none] at h
  rcases h with h | h | h | h
  · exact absurd h (by simp [hcfg.1, hcfg.2])
  · simp at h
  · simp at h
  · simp at h

/-! ## Theorems: the driver-function claims -/

/-- The `try`-block arithmetic agrees field by field with the spec's
formulas (`*0.5` vs `/2`, `sum*0.25` vs mean). -/
lemma squinchCore_eq_spec (p0 p1 p2 p3 : Vec3 ℚ) (cd : CamData) :
    squinchCore p0 p1 p2 p3 cd.sensor_width cd.lens = specSquinchData p0 p1 p2 p3 cd := by
  simp only [squinchCore, specSquinchData, specPerspU, specPerspV, squinch_eps,
    SquinchData.mk.injEq]
  exact ⟨trivial, by ring, by ring, trivial, trivial⟩

/-- C1: when `_calculate_squinch_data` recomputes (cache miss, configured
camera and plane names, camera, plane and all four corner empties
resolvable, camera data readable), the result it returns and caches
carries `width_u = max(u) - min(u)`, `center_u = (min(u)+max(u))/2` and
`center_v = mean of the four v`, where for each corner's camera-local
coordinates `u = x / max(-z, 1e-4)` and `v = y / max(-z, 1e-4)`. -/
theorem C1_recompute_projection_data
    (s : Scene) (cache : SquinchCache) (cn pn : String)
    (cam plane e0 e1 e2 e3 : SceneObj) (cd : CamData)
    (hmiss : ¬(cache.frame = s.frame_current ∧ cache.data.isSome = true))
    (hcn : s.squinch_camera_name = some cn) (hcne : cn ≠ "")
    (hpn : s.squinch_plane_name = some pn) (hpne : pn ≠ "")
    (hcam : find_object s cn = some cam) (hplane : find_object s pn = some plane)
    (he0 : find_object s (get_corner_empty_name pn "bottom_left") = some e0)
    (he1 : find_object s (get_corner_empty_name pn "bottom_right") = some e1)
    (he2 : find_object s (get_corner_empty_name pn "top_left") = some e2)
    (he3 : find_object s (get_corner_empty_name pn "top_right") = some e3)
    (hcd : cam.camData = some cd) :
    calculate_squinch_data s cache =
      ({ frame := s.frame_current,
         data := some (specSquinchData (cam.camInv.apply e0.translation)
           (cam.camInv.apply e1.translation) (cam.camInv.apply e2.translation)
           (cam.camInv.apply e3.translation) cd) },
       some (specSquinchData (cam.camInv.apply e0.translation)
         (cam.camInv.apply e1.translation) (cam.camInv.apply e2.translation)
         (cam.camInv.apply e3.translation) cd)) := by
  have hcompute : computeSquinchData s =
      some (specSquinchData (cam.camInv.apply e0.translation)
        (cam.camInv.apply e1.translation) (cam.camInv.apply e2.translation)
        (cam.camInv.apply e3.translation) cd) := by
    rw [computeSquinchData]
    simp only [hcn, hpn, hcam, hplane, he0, he1, he2, he3, hcd]
    rw [if_neg (by simp [hcne, hpne]), squinchCore_eq_spec]
  rw [calculate_squinch_data, if_neg hmiss, hcompute]

/-- Witness for C1: the spec's worked example, corners `(±1, ±1, -10)`
seen from a camera at the origin. -/
theorem C1_recompute_projection_data_witness :
    calculate_squinch_data wScene wCache0 =
      ({ frame := wScene.frame_current,
         data := some (specSquinchData
           (wCam.camInv.apply (wEmpty ⟨-1, -1, -10⟩).translation)
           (wCam.camInv.apply (wEmpty ⟨1, -1, -10⟩).translation)
           (wCam.camInv.apply (wEmpty ⟨-1, 1, -10⟩).translation)
           (wCam.camInv.apply (wEmpty ⟨1, 1, -10⟩).translation) wCamData) },
       some (specSquinchData
         (wCam.camInv.apply (wEmpty ⟨-1, -1, -10⟩).translation)
         (wCam.camInv.apply (wEmpty ⟨1, -1, -10⟩).translation)
         (wCam.camInv.apply (wEmpty ⟨-1, 1, -10⟩).translation)
         (wCam.camInv.apply (wEmpty ⟨1, 1, -10⟩).translation) wCamData)) :=
  C1_recompute_projection_data wScene wCache0 "Cam" "Plane" wCam (wEmpty ⟨0, 0, -10⟩)
    (wEmpty ⟨-1, -1, -10⟩) (wEmpty ⟨1, -1, -10⟩) (wEmpty ⟨-1, 1, -10⟩) (wEmpty ⟨1, 1, -10⟩)
    wCamData (by decide) rfl (by decide) rfl (by decide) rfl rfl rfl rfl rfl rfl rfl

/-- C2: with cached data present and `|width_u| > 1e-9`, the three query
functions return `max(1, sensor_width / width_u)`, `center_u / width_u`
and `center_v / width_u`. -/
theorem C2_query_formulas
    (s : Scene) (cache : SquinchCache) (d : SquinchData)
    (h : (calculate_squinch_data s cache).2 = some d)
    (hw : (1e-9 : ℚ) < |d.width_u|) :
    (squinch_horizontal_fov s cache).2 = max 1 (d.sensor_width / d.width_u) ∧
    (squinch_horizontal_shift s cache).2 = d.center_u / d.width_u ∧
    (squinch_vertical_shift s cache).2 = d.center_v / d.width_u := by
  have hn : ¬(|d.width_u| ≤ (1e-9 : ℚ)) := not_le.mpr hw
  rcases hp : calculate_squinch_data s cache with ⟨c2, r⟩
  rw [hp] at h
  simp only at h
  subst h
  refine ⟨?_, ?_, ?_⟩ <;>
    simp [squinch_horizontal_fov, squinch_horizontal_shift, squinch_vertical_shift, hp, hn]

/-- Witness for C2: on the worked example `width_u = 1/5`, so the queries
return the clamped focal length and the two shift quotients. -/
theorem C2_query_formulas_witness :
    (squinch_horizontal_fov wScene wCache0).2 =
      max 1 ((specSquinchData
        (wCam.camInv.apply (wEmpty ⟨-1, -1, -10⟩).translation)
        (wCam.camInv.apply (wEmpty ⟨1, -1, -10⟩).translation)
        (wCam.camInv.apply (wEmpty ⟨-1, 1, -10⟩).translation)
        (wCam.camInv.apply (wEmpty ⟨1, 1, -10⟩).translation) wCamData).sensor_width /
        (specSquinchData
        (wCam.camInv.apply (wEmpty ⟨-1, -1, -10⟩).translation)
        (wCam.camInv.apply (wEmpty ⟨1, -1, -10⟩).translation)
        (wCam.camInv.apply (wEmpty ⟨-1, 1, -10⟩).translation)
        (wCam.camInv.apply (wEmpty ⟨1, 1, -10⟩).translation) wCamData).width_u) ∧
    (squinch_horizontal_shift wScene wCache0).2 =
      (specSquinchData
        (wCam.camInv.apply (wEmpty ⟨-1, -1, -10⟩).translation)
        (wCam.camInv.apply (wEmpty ⟨1, -1, -10⟩).translation)
        (wCam.camInv.apply (wEmpty ⟨-1, 1, -10⟩).translation)
        (wCam.camInv.apply (wEmpty ⟨1, 1, -10⟩).translation) wCamData).center_u /
      (specSquinchData
        (wCam.camInv.apply (wEmpty ⟨-1, -1, -10⟩).translation)
        (wCam.camInv.apply (wEmpty ⟨1, -1, -10⟩).translation)
        (wCam.camInv.apply (wEmpty ⟨-1, 1, -10⟩).translation)
        (wCam.camInv.apply (wEmpty ⟨1, 1, -10⟩).translation) wCamData).width_u ∧
    (squinch_vertical_shift wScene wCache0).2 =
      (specSquinchData
        (wCam.camInv.apply (wEmpty ⟨-1, -1, -10⟩).translation)
        (wCam.camInv.apply (wEmpty ⟨1, -1, -10⟩).translation)
        (wCam.camInv.apply (wEmpty ⟨-1, 1, -10⟩).translation)
        (wCam.camInv.apply (wEmpty ⟨1, 1, -10⟩).translation) wCamData).center_v /
      (specSquinchData
        (wCam.camInv.apply (wEmpty ⟨-1, -1, -10⟩).translation)
        (wCam.camInv.apply (wEmpty ⟨1, -1, -10⟩).translation)
        (wCam.camInv.apply (wEmpty ⟨-1, 1, -10⟩).translation)
        (wCam.camInv.apply (wEmpty ⟨1, 1, -10⟩).translation) wCamData).width_u :=
  C2_query_formulas wScene wCache0 _ (by with_unfolding_all decide)
    (by with_unfolding_all decide)

/-- C3: with cached data present but `|width_u| <= 1e-9`, the three query
functions return the neutral defaults 35, 0, 0 without dividing. -/
theorem C3_degenerate_width_defaults
    (s : Scene) (cache : SquinchCache) (d : SquinchData)
    (h : (calculate_squinch_data s cache).2 = some d)
    (hw : |d.width_u| ≤ (1e-9 : ℚ)) :
    (squinch_horizontal_fov s cache).2 = 35 ∧
    (squinch_horizontal_shift s cache).2 = 0 ∧
    (squinch_vertical_shift s cache).2 = 0 := by
  rcases hp : calculate_squinch_data s cache with ⟨c2, r⟩
  rw [hp] at h
  simp only at h
  subst h
  refine ⟨?_, ?_, ?_⟩ <;>
    simp [squinch_horizontal_fov, squinch_horizontal_shift, squinch_vertical_shift, hp, hw]

/-- Witness for C3: four coincident corner empties give `width_u = 0`. -/
theorem C3_degenerate_width_defaults_witness :
    (squinch_horizontal_fov wSceneZero wCache0).2 = 35 ∧
    (squinch_horizontal_shift wSceneZero wCache0).2 = 0 ∧
    (squinch_vertical_shift wSceneZero wCache0).2 = 0 :=
  C3_degenerate_width_defaults wSceneZero wCache0
    (specSquinchData (wCam.camInv.apply (wEmpty ⟨0, 0, -5⟩).translation)
      (wCam.camInv.apply (wEmpty ⟨0, 0, -5⟩).translation)
      (wCam.camInv.apply (wEmpty ⟨0, 0, -5⟩).translation)
      (wCam.camInv.apply (wEmpty ⟨0, 0, -5⟩).translation) wCamData)
    (by with_unfolding_all decide) (by with_unfolding_all decide)

/-- C4 counterexample: the cache key is only `frame_current`.  At
`sceneB` the evaluation instant has advanced past the one cached at
`sceneA` (same frame, different subframe) and the geometry changed, yet
the query returns the stale cached data, not a recomputation. -/
theorem C4_counterexample_subframe_not_keyed :
    sceneB.frame_current = sceneA.frame_current ∧
    sceneB.frame_subframe ≠ sceneA.frame_subframe ∧
    (calculate_squinch_data sceneB cacheAfterA).2 = (calculate_squinch_data sceneA wCache0).2 ∧
    (calculate_squinch_data sceneB cacheAfterA).2 ≠ computeSquinchData sceneB := by
  with_unfolding_all decide

/-- C4 as amended: the cache is keyed by the integer frame alone.
Re-querying at the same instant returns the identical cached outcome; a
query whose frame differs from the cached frame recomputes; the subframe
plays no part in the cache key. -/
theorem C4_amended_frame_keyed_cache (s : Scene) (c : SquinchCache) :
    calculate_squinch_data s (calculate_squinch_data s c).1 = calculate_squinch_data s c ∧
    (c.frame ≠ s.frame_current → (calculate_squinch_data s c).2 = computeSquinchData s) ∧
    (∀ q : ℚ, calculate_squinch_data { s with frame_subframe := q } c =
      calculate_squinch_data s c) := by
  refine ⟨?_, ?_, ?_⟩
  · by_cases hhit : c.frame = s.frame_current ∧ c.data.isSome = true
    · simp [calculate_squinch_data, hhit]
    · cases hcomp : computeSquinchData s with
      | none =>
        have h1 : calculate_squinch_data s c = (c, none) := by
          rw [calculate_squinch_data, if_neg hhit, hcomp]
        rw [h1]
        exact h1
      | some d =>
        have h1 : calculate_squinch_data s c =
            ({ frame := s.frame_current, data := some d }, some d) := by
          rw [calculate_squinch_data, if_neg hhit, hcomp]
        rw [h1]
        simp [calculate_squinch_data]
  · intro hfr
    rw [calculate_squinch_data, if_neg (fun h => hfr h.1)]
    cases hcomp : computeSquinchData s <;> simp
  · intro q
    cases s
    rfl

/-- C8: on a cache miss, every failure the source guards against (unset
or empty configuration keys, unresolvable camera, plane or corner-empty
objects, unreadable camera data inside the `try` block) makes all three
query functions return their safe defaults 35, 0, 0 with the cache left
alone; no failure escapes to the caller. -/
theorem C8_queries_fail_safe (s : Scene) (c : SquinchCache)
    (hmiss : ¬(c.frame = s.frame_current ∧ c.data.isSome = true))
    (hfail : config_falsy s = true ∨ cam_plane_unresolved s = true ∨
      empties_unresolved s = true ∨ camera_data_missing s = true) :
    squinch_horizontal_fov s c = (c, 35) ∧
    squinch_horizontal_shift s c = (c, 0) ∧
    squinch_vertical_shift s c = (c, 0) := by
  have hnone : computeSquinchData s = none := computeSquinchData_eq_none s hfail
  have hc : calculate_squinch_data s c = (c, none) := by
    rw [calculate_squinch_data, if_neg hmiss, hnone]
  refine ⟨?_, ?_, ?_⟩ <;>
    simp [squinch_horizontal_fov, squinch_horizontal_shift, squinch_vertical_shift, hc]

/-- Witness for C8: a scene with both configuration keys unset. -/
theorem C8_queries_fail_safe_witness :
    squinch_horizontal_fov wSceneNoConfig wCache0 = (wCache0, 35) ∧
    squinch_horizontal_shift wSceneNoConfig wCache0 = (wCache0, 0) ∧
    squinch_vertical_shift wSceneNoConfig wCache0 = (wCache0, 0) :=
  C8_queries_fail_safe wSceneNoConfig wCache0 (by decide) (Or.inl (by decide))

/-- C10: a failed recomputation (`None` result) leaves both the cache's
frame key and its stored data untouched, and a cache hit for the current
frame is returned unchanged whatever the rest of the scene looks like. -/
theorem C10_failure_preserves_cache (s : Scene) (c : SquinchCache) :
    ((calculate_squinch_data s c).2 = none → (calculate_squinch_data s c).1 = c) ∧
    (∀ d : SquinchData, c.frame = s.frame_current → c.data = some d →
      calculate_squinch_data s c = (c, some d)) := by
  constructor
  · by_cases hhit : c.frame = s.frame_current ∧ c.data.isSome = true
    · rcases hhit.2 with h2
      rcases Option.isSome_iff_exists.mp h2 with ⟨d, hd⟩
      simp [calculate_squinch_data, hhit, hd]
    · rw [calculate_squinch_data, if_neg hhit]
      cases hcomp : computeSquinchData s <;> simp
  · intro d h1 h2
    simp [calculate_squinch_data, h1, h2]

/-! ## Vector algebra lemmas for the plane-basis proofs -/

lemma Vec3.add_def (a b : Vec3 ℝ) : a + b = ⟨a.x + b.x, a.y + b.y, a.z + b.z⟩ := rfl

lemma Vec3.sub_def (a b : Vec3 ℝ) : a - b = ⟨a.x - b.x, a.y - b.y, a.z - b.z⟩ := rfl

lemma Vec3.neg_def (a : Vec3 ℝ) : -a = ⟨-a.x, -a.y, -a.z⟩ := rfl

lemma Vec3.smul_def (c : ℝ) (v : Vec3 ℝ) : c • v = ⟨c * v.x, c * v.y, c * v.z⟩ := rfl

lemma Vec3.dot_comm (a b : Vec3 ℝ) : Vec3.dot a b = Vec3.dot b a := by
  simp only [Vec3.dot]; ring

lemma Vec3.dot_add_left (a b c : Vec3 ℝ) :
    Vec3.dot (a + b) c = Vec3.dot a c + Vec3.dot b c := by
  simp only [Vec3.dot, Vec3.add_def]; ring

lemma Vec3.dot_smul_left (c : ℝ) (a b : Vec3 ℝ) :
    Vec3.dot (c • a) b = c * Vec3.dot a b := by
  simp only [Vec3.dot, Vec3.smul_def]; ring

lemma Vec3.dot_neg_left (a b : Vec3 ℝ) : Vec3.dot (-a) b = -Vec3.dot a b := by
  simp only [Vec3.dot, Vec3.neg_def]; ring

lemma Vec3.dot_neg_right (a b : Vec3 ℝ) : Vec3.dot a (-b) = -Vec3.dot a b := by
  simp only [Vec3.dot, Vec3.neg_def]; ring

lemma Vec3.dot_self_nonneg (v : Vec3 ℝ) : 0 ≤ Vec3.dot v v := by
  simp only [Vec3.dot]
  nlinarith [sq_nonneg v.x, sq_nonneg v.y, sq_nonneg v.z]

lemma Vec3.dot_cross_left (a b : Vec3 ℝ) : Vec3.dot (Vec3.cross a b) a = 0 := by
  simp only [Vec3.dot, Vec3.cross]; ring

lemma Vec3.dot_cross_right (a b : Vec3 ℝ) : Vec3.dot (Vec3.cross a b) b = 0 := by
  simp only [Vec3.dot, Vec3.cross]; ring

lemma Vec3.cross_dot_self_left (a b : Vec3 ℝ) : Vec3.dot a (Vec3.cross a b) = 0 := by
  simp only [Vec3.dot, Vec3.cross]; ring

lemma Vec3.cross_normSq (a b : Vec3 ℝ) :
    Vec3.dot (Vec3.cross a b) (Vec3.cross a b) =
      Vec3.dot a a * Vec3.dot b b - Vec3.dot a b ^ 2 := by
  simp only [Vec3.dot, Vec3.cross]; ring

lemma Vec3.cross_swap (a b : Vec3 ℝ) : Vec3.cross a b = -Vec3.cross b a := by
  simp only [Vec3.cross, Vec3.neg_def, Vec3.mk.injEq]
  refine ⟨by ring, by ring, by ring⟩

lemma Vec3.cross_cross_self (u n : Vec3 ℝ) (h1 : Vec3.dot u u = 1) (h2 : Vec3.dot u n = 0) :
    Vec3.cross u (Vec3.cross n u) = n := by
  cases u with | mk ux uy uz =>
  cases n with | mk nx ny nz =>
  simp only [Vec3.dot] at h1 h2
  simp only [Vec3.cross, Vec3.mk.injEq]
  refine ⟨?_, ?_, ?_⟩
  · linear_combination nx * h1 - ux * h2
  · linear_combination ny * h1 - uy * h2
  · linear_combination nz * h1 - uz * h2

lemma Vec3.length_eq_zero_iff (v : Vec3 ℝ) : v.length = 0 ↔ Vec3.dot v v = 0 := by
  unfold Vec3.length
  rw [Real.sqrt_eq_zero (Vec3.dot_self_nonneg v)]

lemma Vec3.dot_ne_zero_of_length_gt (v : Vec3 ℝ) (c : ℝ) (hc : 0 < c)
    (h : v.length > c) : Vec3.dot v v ≠ 0 := by
  intro h0
  rw [← Vec3.length_eq_zero_iff] at h0
  rw [h0] at h
  exact absurd (hc.trans h) (lt_irrefl 0)

lemma Vec3.normalized_dot_self (v : Vec3 ℝ) (h : Vec3.dot v v ≠ 0) :
    Vec3.dot v.normalized v.normalized = 1 := by
  have hL : v.length ≠ 0 := fun h0 => h ((Vec3.length_eq_zero_iff v).mp h0)
  have hL2 : v.length ^ 2 = Vec3.dot v v := Real.sq_sqrt (Vec3.dot_self_nonneg v)
  unfold Vec3.normalized
  rw [if_neg hL, Vec3.dot_smul_left, Vec3.dot_comm, Vec3.dot_smul_left]
  rw [Vec3.dot_comm v v] at hL2 ⊢
  field_simp
  linarith [hL2]

lemma Vec3.dot_normalized_left (v w : Vec3 ℝ) (h : Vec3.dot v w = 0) :
    Vec3.dot v.normalized w = 0 := by
  unfold Vec3.normalized
  split
  · simp [Vec3.dot]
  · rw [Vec3.dot_smul_left, h, mul_zero]

lemma Vec3.normalized_of_dot_one (v : Vec3 ℝ) (h : Vec3.dot v v = 1) : v.normalized = v := by
  have hL : v.length = 1 := by unfold Vec3.length; rw [h, Real.sqrt_one]
  unfold Vec3.normalized
  rw [if_neg (by rw [hL]; norm_num), hL]
  cases v with | mk x y z => simp [Vec3.smul_def]

lemma Vec3.length_eq_one_of_dot_one (v : Vec3 ℝ) (h : Vec3.dot v v = 1) : v.length = 1 := by
  unfold Vec3.length; rw [h, Real.sqrt_one]

/-! ## Orthonormality of the constructed plane basis -/

lemma dot_zAxis (n : Vec3 ℝ) : Vec3.dot n zAxis = n.z := by
  simp [Vec3.dot, zAxis]

lemma dot_yAxis (n : Vec3 ℝ) : Vec3.dot n yAxis = n.y := by
  simp [Vec3.dot, yAxis]

/-- The chosen up reference is never parallel to a unit normal, so the
first cross product is nonzero. -/
lemma up_reference_cross_ne (n : Vec3 ℝ) (hn : Vec3.dot n n = 1) :
    Vec3.dot (Vec3.cross (up_reference n) n) (Vec3.cross (up_reference n) n) ≠ 0 := by
  have hd : Vec3.dot n n = n.x * n.x + n.y * n.y + n.z * n.z := rfl
  unfold up_reference
  split
  case isTrue h =>
    rw [Vec3.cross_normSq]
    have hz : Vec3.dot zAxis n = n.z := by rw [Vec3.dot_comm, dot_zAxis]
    have hzz : Vec3.dot zAxis zAxis = 1 := by norm_num [Vec3.dot, zAxis]
    rw [hz, hzz, hn]
    rw [dot_zAxis] at h
    have habs : |n.z| < 0.999 := h
    nlinarith [sq_abs n.z, abs_nonneg n.z]
  case isFalse h =>
    rw [Vec3.cross_normSq]
    have hy : Vec3.dot yAxis n = n.y := by rw [Vec3.dot_comm, dot_yAxis]
    have hyy : Vec3.dot yAxis yAxis = 1 := by norm_num [Vec3.dot, yAxis]
    rw [hy, hyy, hn]
    rw [dot_zAxis, not_lt] at h
    have habs : (0.999 : ℝ) ≤ |n.z| := h
    rw [hd] at hn
    nlinarith [sq_abs n.z, abs_nonneg n.z, sq_nonneg n.x]

/-- The shared orthonormalization (`build_basis`) of a unit normal gives
unit tangents, pairwise orthogonality and right-handedness. -/
lemma build_basis_props (n : Vec3 ℝ) (hn : Vec3.dot n n = 1) :
    Vec3.dot (build_basis n).1 (build_basis n).1 = 1 ∧
    Vec3.dot (build_basis n).2 (build_basis n).2 = 1 ∧
    Vec3.dot (build_basis n).1 (build_basis n).2 = 0 ∧
    Vec3.dot (build_basis n).1 n = 0 ∧
    Vec3.dot (build_basis n).2 n = 0 ∧
    Vec3.cross (build_basis n).1 (build_basis n).2 = n := by
  have hw : Vec3.dot (Vec3.cross (up_reference n) n) (Vec3.cross (up_reference n) n) ≠ 0 :=
    up_reference_cross_ne n hn
  have hb : build_basis n =
      ((Vec3.cross (up_reference n) n).normalized,
       (Vec3.cross n (Vec3.cross (up_reference n) n).normalized).normalized) := rfl
  set u := (Vec3.cross (up_reference n) n).normalized with hu
  have hu1 : Vec3.dot u u = 1 := Vec3.normalized_dot_self _ hw
  have hun : Vec3.dot u n = 0 :=
    Vec3.dot_normalized_left _ _ (Vec3.dot_cross_right (up_reference n) n)
  have hnu : Vec3.dot n u = 0 := by rw [Vec3.dot_comm]; exact hun
  have hv1 : Vec3.dot (Vec3.cross n u) (Vec3.cross n u) = 1 := by
    rw [Vec3.cross_normSq, hn, hu1, hnu]; ring
  have hveq : (Vec3.cross n u).normalized = Vec3.cross n u :=
    Vec3.normalized_of_dot_one _ hv1
  rw [hb, hveq]
  refine ⟨hu1, hv1, ?_, hun, Vec3.dot_cross_left n u, Vec3.cross_cross_self u n hu1 hun⟩
  rw [Vec3.dot_comm]
  exact Vec3.dot_cross_right n u

/-- Whatever `find_third` returns passed its cross-product length test. -/
lemma find_third_prop (p0 p1 : Vec3 ℝ) (l : List (Vec3 ℝ)) (q : Vec3 ℝ)
    (h : find_third p0 p1 l = some q) :
    ((q - p0).cross (p1 - p0)).length > 1e-8 := by
  induction l with
  | nil => simp [find_third] at h
  | cons a t ih =>
    rw [find_third] at h
    split at h
    · cases h; assumption
    · exact ih h

/-- The vertex-triple fallback normal of a non-empty vertex list is unit. -/
lemma fallback_normal_unit (wverts : List (Vec3 ℝ)) (h : wverts ≠ []) :
    Vec3.dot (fallback_normal wverts) (fallback_normal wverts) = 1 := by
  match wverts, h with
  | p0 :: rest, _ =>
    rw [fallback_normal]
    cases h2 : find_second p0 rest with
    | none => norm_num [Vec3.dot]
    | some p1 =>
      dsimp only
      cases h3 : find_third p0 p1 (rest.drop 1) with
      | none => norm_num [Vec3.dot]
      | some p2 =>
        dsimp only
        apply Vec3.normalized_dot_self
        have hlen := find_third_prop p0 p1 _ p2 h3
        have hswap : Vec3.cross (p1 - p0) (p2 - p0) = -Vec3.cross (p2 - p0) (p1 - p0) :=
          Vec3.cross_swap _ _
        rw [hswap, Vec3.dot_neg_left, Vec3.dot_neg_right, neg_neg]
        exact Vec3.dot_ne_zero_of_length_gt _ 1e-8 (by norm_num) hlen

/-- The normal `_compute_plane_basis` chooses for a mesh with vertices is
always unit. -/
lemma plane_normal_unit (p : PlaneObject) (h : p.verts ≠ []) :
    Vec3.dot (plane_normal p) (plane_normal p) = 1 := by
  have hw : mesh_world_vertices p ≠ [] := by
    simpa [mesh_world_vertices] using h
  unfold plane_normal
  rw [if_neg hw]
  split
  case isTrue hacc =>
    exact Vec3.normalized_dot_self _
      (Vec3.dot_ne_zero_of_length_gt _ 1e-12 (by norm_num) hacc.2)
  case isFalse hacc =>
    exact fallback_normal_unit _ hw

/-- Orthonormality and right-handedness of the full plane basis. -/
lemma plane_basis_orthonormal (p : PlaneObject) (h : p.verts ≠ []) :
    Vec3.dot (plane_axis_u p) (plane_axis_u p) = 1 ∧
    Vec3.dot (plane_axis_v p) (plane_axis_v p) = 1 ∧
    Vec3.dot (plane_axis_u p) (plane_axis_v p) = 0 ∧
    Vec3.dot (plane_axis_u p) (plane_normal p) = 0 ∧
    Vec3.dot (plane_axis_v p) (plane_normal p) = 0 ∧
    Vec3.cross (plane_axis_u p) (plane_axis_v p) = plane_normal p :=
  build_basis_props (plane_normal p) (plane_normal_unit p h)

/-! ## Theorems: the plane-geometry claims -/

/-- C5: for every mesh with at least one vertex, `_compute_plane_basis`
returns axes that are pairwise orthogonal (dot products within 1e-6 of
zero, in fact exactly zero), unit length (within 1e-6 of 1, in fact
exactly 1), and right-handed with `normal = axis_u x axis_v` exactly. -/
theorem C5_basis_orthonormal_right_handed (p : PlaneObject) (h : p.verts ≠ []) :
    |Vec3.dot (compute_plane_basis p).2.1 (compute_plane_basis p).2.2.1| ≤ 1e-6 ∧
    |Vec3.dot (compute_plane_basis p).2.1 (compute_plane_basis p).2.2.2| ≤ 1e-6 ∧
    |Vec3.dot (compute_plane_basis p).2.2.1 (compute_plane_basis p).2.2.2| ≤ 1e-6 ∧
    |((compute_plane_basis p).2.1).length - 1| ≤ 1e-6 ∧
    |((compute_plane_basis p).2.2.1).length - 1| ≤ 1e-6 ∧
    |((compute_plane_basis p).2.2.2).length - 1| ≤ 1e-6 ∧
    Vec3.cross (compute_plane_basis p).2.1 (compute_plane_basis p).2.2.1 =
      (compute_plane_basis p).2.2.2 := by
  obtain ⟨hu, hv, huv, hun, hvn, hx⟩ := plane_basis_orthonormal p h
  have hn := plane_normal_unit p h
  simp only [compute_plane_basis]
  rw [huv, hun, hvn, Vec3.length_eq_one_of_dot_one _ hu,
    Vec3.length_eq_one_of_dot_one _ hv, Vec3.length_eq_one_of_dot_one _ hn]
  refine ⟨by norm_num, by norm_num, by norm_num, by norm_num, by norm_num, by norm_num, hx⟩

/-- Witness for C5: the 2x1 rectangle mesh. -/
theorem C5_basis_orthonormal_right_handed_witness :
    |Vec3.dot (compute_plane_basis wPlane).2.1 (compute_plane_basis wPlane).2.2.1| ≤ 1e-6 ∧
    |Vec3.dot (compute_plane_basis wPlane).2.1 (compute_plane_basis wPlane).2.2.2| ≤ 1e-6 ∧
    |Vec3.dot (compute_plane_basis wPlane).2.2.1 (compute_plane_basis wPlane).2.2.2| ≤ 1e-6 ∧
    |((compute_plane_basis wPlane).2.1).length - 1| ≤ 1e-6 ∧
    |((compute_plane_basis wPlane).2.2.1).length - 1| ≤ 1e-6 ∧
    |((compute_plane_basis wPlane).2.2.2).length - 1| ≤ 1e-6 ∧
    Vec3.cross (compute_plane_basis wPlane).2.1 (compute_plane_basis wPlane).2.2.1 =
      (compute_plane_basis wPlane).2.2.2 :=
  C5_basis_orthonormal_right_handed wPlane (by simp [wPlane])

/-- Projecting a reconstructed corner back onto `axis_u` returns the
extent it was built from. -/
lemma pos_dot_u (o u v : Vec3 ℝ) (uu vv : ℝ) (hu : Vec3.dot u u = 1)
    (hvu : Vec3.dot v u = 0) :
    Vec3.dot (o + (uu - Vec3.dot o u) • u + (vv - Vec3.dot o v) • v) u = uu := by
  rw [Vec3.dot_add_left, Vec3.dot_add_left, Vec3.dot_smul_left, Vec3.dot_smul_left, hu, hvu]
  ring

/-- Projecting a reconstructed corner back onto `axis_v` returns the
extent it was built from. -/
lemma pos_dot_v (o u v : Vec3 ℝ) (uu vv : ℝ) (hv : Vec3.dot v v = 1)
    (huv : Vec3.dot u v = 0) :
    Vec3.dot (o + (uu - Vec3.dot o u) • u + (vv - Vec3.dot o v) • v) v = vv := by
  rw [Vec3.dot_add_left, Vec3.dot_add_left, Vec3.dot_smul_left, Vec3.dot_smul_left, hv, huv]
  ring

/-- C6: the four corners `get_plane_corner_world_positions` returns
project back onto `(axis_u, axis_v)` exactly onto the min/max extents
they were derived from. -/
theorem C6_corner_projection_roundtrip (p : PlaneObject) (h : p.verts ≠ []) :
    Vec3.dot (get_plane_corner_world_positions p).bottom_left (compute_plane_basis p).2.1 =
      (extent ((mesh_world_vertices p).map
        (fun q => Vec3.dot q (compute_plane_basis p).2.1))).1 ∧
    Vec3.dot (get_plane_corner_world_positions p).bottom_left (compute_plane_basis p).2.2.1 =
      (extent ((mesh_world_vertices p).map
        (fun q => Vec3.dot q (compute_plane_basis p).2.2.1))).1 ∧
    Vec3.dot (get_plane_corner_world_positions p).bottom_right (compute_plane_basis p).2.1 =
      (extent ((mesh_world_vertices p).map
        (fun q => Vec3.dot q (compute_plane_basis p).2.1))).2 ∧
    Vec3.dot (get_plane_corner_world_positions p).bottom_right (compute_plane_basis p).2.2.1 =
      (extent ((mesh_world_vertices p).map
        (fun q => Vec3.dot q (compute_plane_basis p).2.2.1))).1 ∧
    Vec3.dot (get_plane_corner_world_positions p).top_left (compute_plane_basis p).2.1 =
      (extent ((mesh_world_vertices p).map
        (fun q => Vec3.dot q (compute_plane_basis p).2.1))).1 ∧
    Vec3.dot (get_plane_corner_world_positions p).top_left (compute_plane_basis p).2.2.1 =
      (extent ((mesh_world_vertices p).map
        (fun q => Vec3.dot q (compute_plane_basis p).2.2.1))).2 ∧
    Vec3.dot (get_plane_corner_world_positions p).top_right (compute_plane_basis p).2.1 =
      (extent ((mesh_world_vertices p).map
        (fun q => Vec3.dot q (compute_plane_basis p).2.1))).2 ∧
    Vec3.dot (get_plane_corner_world_positions p).top_right (compute_plane_basis p).2.2.1 =
      (extent ((mesh_world_vertices p).map
        (fun q => Vec3.dot q (compute_plane_basis p).2.2.1))).2 := by
  obtain ⟨hu, hv, huv, hun, hvn, hx⟩ := plane_basis_orthonormal p h
  have hvu : Vec3.dot (plane_axis_v p) (plane_axis_u p) = 0 := by
    rw [Vec3.dot_comm]; exact huv
  simp only [get_plane_corner_world_positions, compute_plane_basis]
  exact ⟨pos_dot_u _ _ _ _ _ hu hvu, pos_dot_v _ _ _ _ _ hv huv,
    pos_dot_u _ _ _ _ _ hu hvu, pos_dot_v _ _ _ _ _ hv huv,
    pos_dot_u _ _ _ _ _ hu hvu, pos_dot_v _ _ _ _ _ hv huv,
    pos_dot_u _ _ _ _ _ hu hvu, pos_dot_v _ _ _ _ _ hv huv⟩

/-- Witness for C6: the 2x1 rectangle mesh. -/
theorem C6_corner_projection_roundtrip_witness :
    Vec3.dot (get_plane_corner_world_positions wPlane).bottom_left
        (compute_plane_basis wPlane).2.1 =
      (extent ((mesh_world_vertices wPlane).map
        (fun q => Vec3.dot q (compute_plane_basis wPlane).2.1))).1 ∧
    Vec3.dot (get_plane_corner_world_positions wPlane).bottom_left
        (compute_plane_basis wPlane).2.2.1 =
      (extent ((mesh_world_vertices wPlane).map
        (fun q => Vec3.dot q (compute_plane_basis wPlane).2.2.1))).1 ∧
    Vec3.dot (get_plane_corner_world_positions wPlane).bottom_right
        (compute_plane_basis wPlane).2.1 =
      (extent ((mesh_world_vertices wPlane).map
        (fun q => Vec3.dot q (compute_plane_basis wPlane).2.1))).2 ∧
    Vec3.dot (get_plane_corner_world_positions wPlane).bottom_right
        (compute_plane_basis wPlane).2.2.1 =
      (extent ((mesh_world_vertices wPlane).map
        (fun q => Vec3.dot q (compute_plane_basis wPlane).2.2.1))).1 ∧
    Vec3.dot (get_plane_corner_world_positions wPlane).top_left
        (compute_plane_basis wPlane).2.1 =
      (extent ((mesh_world_vertices wPlane).map
        (fun q => Vec3.dot q (compute_plane_basis wPlane).2.1))).1 ∧
    Vec3.dot (get_plane_corner_world_positions wPlane).top_left
        (compute_plane_basis wPlane).2.2.1 =
      (extent ((mesh_world_vertices wPlane).map
        (fun q => Vec3.dot q (compute_plane_basis wPlane).2.2.1))).2 ∧
    Vec3.dot (get_plane_corner_world_positions wPlane).top_right
        (compute_plane_basis wPlane).2.1 =
      (extent ((mesh_world_vertices wPlane).map
        (fun q => Vec3.dot q (compute_plane_basis wPlane).2.1))).2 ∧
    Vec3.dot (get_plane_corner_world_positions wPlane).top_right
        (compute_plane_basis wPlane).2.2.1 =
      (extent ((mesh_world_vertices wPlane).map
        (fun q => Vec3.dot q (compute_plane_basis wPlane).2.2.1))).2 :=
  C6_corner_projection_roundtrip wPlane (by simp [wPlane])

/-- C7: the orientation frame faces the camera: its normal `n2` has
`(camPos - origin) . n2 >= 0`; when the camera is on the back side
(`side < 0`) the normal is flipped and the tangent axes rebuilt by the
shared orthonormalization, otherwise the plane basis is returned
unchanged. -/
theorem C7_orientation_faces_camera (p : PlaneObject) (camPos : Vec3 ℝ) :
    0 ≤ Vec3.dot (camPos - (ensure_orientation_frame p (some camPos)).1)
      (ensure_orientation_frame p (some camPos)).2.2.2 ∧
    (Vec3.dot (camPos - (compute_plane_basis p).1) (compute_plane_basis p).2.2.2 < 0 →
      ensure_orientation_frame p (some camPos) =
        ((compute_plane_basis p).1,
         (build_basis (-(compute_plane_basis p).2.2.2)).1,
         (build_basis (-(compute_plane_basis p).2.2.2)).2,
         -(compute_plane_basis p).2.2.2)) ∧
    (0 ≤ Vec3.dot (camPos - (compute_plane_basis p).1) (compute_plane_basis p).2.2.2 →
      ensure_orientation_frame p (some camPos) = compute_plane_basis p) := by
  by_cases hside :
    Vec3.dot (camPos - (compute_plane_basis p).1) (compute_plane_basis p).2.2.2 < 0
  · have hframe : ensure_orientation_frame p (some camPos) =
        ((compute_plane_basis p).1,
         (build_basis (-(compute_plane_basis p).2.2.2)).1,
         (build_basis (-(compute_plane_basis p).2.2.2)).2,
         -(compute_plane_basis p).2.2.2) := by
      rw [ensure_orientation_frame]
      simp only [compute_plane_basis] at hside ⊢
      rw [if_pos hside]
    refine ⟨?_, fun _ => hframe, fun habs => absurd hside (not_lt.mpr habs)⟩
    rw [hframe]
    dsimp only
    rw [Vec3.dot_neg_right]
    linarith
  · have hframe : ensure_orientation_frame p (some camPos) = compute_plane_basis p := by
      rw [ensure_orientation_frame]
      simp only [compute_plane_basis] at hside ⊢
      rw [if_neg hside]
    refine ⟨?_, fun habs => absurd habs hside, fun _ => hframe⟩
    rw [hframe]
    exact not_lt.mp hside

/-- The resolution arithmetic of lines 215-229 on a given positive width
and height: both outputs even, the horizontal resolution kept when it is
already even and at least 2, and ratio 2 at 1920 wide gives 1920 x 960. -/
lemma set_render_aspect_core_props (r : RenderSettings) (w h : ℝ)
    (hw : 0 < w) (hh : 0 < h) :
    (set_render_aspect_core r w h).resolution_x % 2 = 0 ∧
    (set_render_aspect_core r w h).resolution_y % 2 = 0 ∧
    (r.resolution_x % 2 = 0 → 2 ≤ r.resolution_x →
      (set_render_aspect_core r w h).resolution_x = r.resolution_x) ∧
    (w / h = 2 → r.resolution_x = 1920 →
      (set_render_aspect_core r w h).resolution_x = 1920 ∧
      (set_render_aspect_core r w h).resolution_y = 960) := by
  have hneg : ¬(w ≤ 0 ∨ h ≤ 0) := by push_neg; exact ⟨hw, hh⟩
  rw [set_render_aspect_core, if_neg hneg]
  dsimp only
  refine ⟨?_, ?_, ?_, ?_⟩
  · split
    case isTrue hodd => omega
    case isFalse heven => omega
  · split
    case isTrue hodd => omega
    case isFalse heven => omega
  · intro hx0 hx2
    rw [max_eq_right hx2]
    simp [hx0]
  · intro hwh hx
    have hresx :
        (if (max 2 r.resolution_x) % 2 ≠ 0 then max 2 r.resolution_x + 1
         else max 2 r.resolution_x) = (1920 : ℤ) := by
      rw [hx]; norm_num
    have h960 : (((1920 : ℤ) : ℝ)) / (w / h) = 960 := by
      rw [hwh]; norm_num
    have hfloor : ⌊(960 : ℝ)⌋ = 960 := by
      rw [show (960 : ℝ) = ((960 : ℤ) : ℝ) by norm_num, Int.floor_intCast]
    have hpr : python_round (960 : ℝ) = 960 := by
      rw [python_round]
      rw [hfloor]
      norm_num
    refine ⟨hresx, ?_⟩
    rw [hresx, h960, hpr]
    norm_num

lemma sqrt_four : Real.sqrt 4 = 2 := by
  rw [show (4 : ℝ) = 2 ^ 2 by norm_num, Real.sqrt_sq (by norm_num : (0 : ℝ) ≤ 2)]

lemma wPlane_world_vertices :
    mesh_world_vertices wPlane =
      [⟨0, 0, 0⟩, ⟨2, 0, 0⟩, ⟨2, 1, 0⟩, ⟨0, 1, 0⟩] := by
  simp only [mesh_world_vertices, wPlane, Mat3.mulVec, Vec3.dot, Vec3.add_def, List.map]
  norm_num

lemma wPlane_normal : plane_normal wPlane = ⟨0, 0, 1⟩ := by
  have hwv := wPlane_world_vertices
  have hne : mesh_world_vertices wPlane ≠ [] := by rw [hwv]; simp
  rw [plane_normal, if_neg hne, if_neg (by simp [wPlane])]
  rw [hwv, fallback_normal]
  have hs2 : find_second ⟨0, 0, 0⟩ [⟨2, 0, 0⟩, ⟨2, 1, 0⟩, ⟨0, 1, 0⟩] =
      some ⟨2, 0, 0⟩ := by
    rw [find_second, if_pos]
    rw [show ((⟨2, 0, 0⟩ : Vec3 ℝ) - ⟨0, 0, 0⟩) = ⟨2, 0, 0⟩ by
      rw [Vec3.sub_def]; norm_num]
    show Real.sqrt (Vec3.dot _ _) > _
    rw [show Vec3.dot (⟨2, 0, 0⟩ : Vec3 ℝ) ⟨2, 0, 0⟩ = 4 by norm_num [Vec3.dot]]
    rw [sqrt_four]
    norm_num
  rw [hs2]
  dsimp only
  have hs3 : find_third ⟨0, 0, 0⟩ ⟨2, 0, 0⟩
      ([(⟨2, 0, 0⟩ : Vec3 ℝ), ⟨2, 1, 0⟩, ⟨0, 1, 0⟩].drop 1) = some ⟨2, 1, 0⟩ := by
    rw [List.drop, List.drop, find_third, if_pos]
    rw [show ((⟨2, 1, 0⟩ : Vec3 ℝ) - ⟨0, 0, 0⟩) = ⟨2, 1, 0⟩ by
      rw [Vec3.sub_def]; norm_num]
    rw [show ((⟨2, 0, 0⟩ : Vec3 ℝ) - ⟨0, 0, 0⟩) = ⟨2, 0, 0⟩ by
      rw [Vec3.sub_def]; norm_num]
    rw [show Vec3.cross (⟨2, 1, 0⟩ : Vec3 ℝ) ⟨2, 0, 0⟩ = ⟨0, 0, -2⟩ by
      simp [Vec3.cross]]
    show Real.sqrt (Vec3.dot _ _) > _
    rw [show Vec3.dot (⟨0, 0, -2⟩ : Vec3 ℝ) ⟨0, 0, -2⟩ = 4 by norm_num [Vec3.dot]]
    rw [sqrt_four]
    norm_num
  rw [hs3]
  dsimp only
  rw [show ((⟨2, 0, 0⟩ : Vec3 ℝ) - ⟨0, 0, 0⟩) = ⟨2, 0, 0⟩ by rw [Vec3.sub_def]; norm_num]
  rw [show ((⟨2, 1, 0⟩ : Vec3 ℝ) - ⟨0, 0, 0⟩) = ⟨2, 1, 0⟩ by rw [Vec3.sub_def]; norm_num]
  rw [show Vec3.cross (⟨2, 0, 0⟩ : Vec3 ℝ) ⟨2, 1, 0⟩ = ⟨0, 0, 2⟩ by
    simp [Vec3.cross]]
  rw [Vec3.normalized]
  rw [show (⟨0, 0, 2⟩ : Vec3 ℝ).length = 2 by
    unfold Vec3.length
    rw [show Vec3.dot (⟨0, 0, 2⟩ : Vec3 ℝ) ⟨0, 0, 2⟩ = 4 by norm_num [Vec3.dot]]
    exact sqrt_four]
  rw [if_neg (by norm_num)]
  rw [Vec3.smul_def]
  norm_num

lemma wPlane_axis_u : plane_axis_u wPlane = ⟨1, 0, 0⟩ := by
  rw [plane_axis_u, wPlane_normal, build_basis]
  dsimp only
  rw [up_reference, dot_zAxis]
  rw [if_neg (by norm_num)]
  rw [show Vec3.cross yAxis (⟨0, 0, 1⟩ : Vec3 ℝ) = ⟨1, 0, 0⟩ by
    simp [Vec3.cross, yAxis]]
  exact Vec3.normalized_of_dot_one _ (by simp [Vec3.dot])

lemma wPlane_axis_v : plane_axis_v wPlane = ⟨0, 1, 0⟩ := by
  rw [plane_axis_v, build_basis]
  dsimp only
  have hu : ((Vec3.cross (up_reference (plane_normal wPlane)) (plane_normal wPlane)).normalized)
      = ⟨1, 0, 0⟩ := by
    have := wPlane_axis_u
    rw [plane_axis_u, build_basis] at this
    exact this
  rw [hu, wPlane_normal]
  rw [show Vec3.cross (⟨0, 0, 1⟩ : Vec3 ℝ) ⟨1, 0, 0⟩ = ⟨0, 1, 0⟩ by
    simp [Vec3.cross]]
  exact Vec3.normalized_of_dot_one _ (by simp [Vec3.dot])

/-- `width_height_from_corners` on the 2x1 rectangle: width 2, height 1. -/
lemma wPlane_width_height : width_height_from_corners wPlane = (2, 1) := by
  have hwv := wPlane_world_vertices
  simp only [width_height_from_corners, compute_plane_basis]
  rw [wPlane_axis_u, wPlane_axis_v, hwv]
  rw [if_neg (by simp)]
  rw [show ([⟨0, 0, 0⟩, ⟨2, 0, 0⟩, ⟨2, 1, 0⟩, ⟨0, 1, 0⟩] : List (Vec3 ℝ)).map
      (fun q => Vec3.dot q ⟨1, 0, 0⟩) = [0, 2, 2, 0] by
    simp [Vec3.dot]]
  rw [show ([⟨0, 0, 0⟩, ⟨2, 0, 0⟩, ⟨2, 1, 0⟩, ⟨0, 1, 0⟩] : List (Vec3 ℝ)).map
      (fun q => Vec3.dot q ⟨0, 1, 0⟩) = [0, 0, 1, 1] by
    simp [Vec3.dot]]
  rw [extent, extent]
  simp only [List.foldl]
  norm_num [min_def, max_def]

/-- C9: `set_render_aspect_to_plane` matches the render resolution to the
plane's width:height ratio, keeping the horizontal resolution (whenever
it is already even and at least 2), rounding both dimensions to even
integers by bumping an odd rounded value up by one, and on the worked
instance (width:height ratio 2, `resolution_x = 1920`) producing
1920 x 960. -/
theorem C9_render_aspect_resolution (r : RenderSettings) (p : PlaneObject) (w h : ℝ)
    (hwh : width_height_from_corners p = (w, h)) (hw : 0 < w) (hh : 0 < h) :
    (set_render_aspect_to_plane r p).resolution_x % 2 = 0 ∧
    (set_render_aspect_to_plane r p).resolution_y % 2 = 0 ∧
    (r.resolution_x % 2 = 0 → 2 ≤ r.resolution_x →
      (set_render_aspect_to_plane r p).resolution_x = r.resolution_x) ∧
    (w / h = 2 → r.resolution_x = 1920 →
      (set_render_aspect_to_plane r p).resolution_x = 1920 ∧
      (set_render_aspect_to_plane r p).resolution_y = 960) := by
  have hval : set_render_aspect_to_plane r p = set_render_aspect_core r w h := by
    rw [set_render_aspect_to_plane, hwh]
  rw [hval]
  exact set_render_aspect_core_props r w h hw hh

/-- Witness for C9: the 2x1 rectangle mesh (so `width_height_from_corners`
returns width 2, height 1, ratio 2) at 1920 wide gives 1920 x 960 with
both dimensions even. -/
theorem C9_render_aspect_resolution_witness :
    (set_render_aspect_to_plane wRender wPlane).resolution_x % 2 = 0 ∧
    (set_render_aspect_to_plane wRender wPlane).resolution_y % 2 = 0 ∧
    (wRender.resolution_x % 2 = 0 → 2 ≤ wRender.resolution_x →
      (set_render_aspect_to_plane wRender wPlane).resolution_x = wRender.resolution_x) ∧
    ((2 : ℝ) / 1 = 2 → wRender.resolution_x = 1920 →
      (set_render_aspect_to_plane wRender wPlane).resolution_x = 1920 ∧
      (set_render_aspect_to_plane wRender wPlane).resolution_y = 960) :=
  C9_render_aspect_resolution wRender wPlane 2 1 wPlane_width_height (by norm_num) (by norm_num)
